import Mathlib

/-!
Verification of the reference-format validator
(`scripts/validate/validate_references.py`).

The script classifies raw bibliographic entry strings into five literature
schemas with Python regular expressions, extracts fields, normalizes author
lists, and validates a batch, producing error and warning message lists.

The embedding below mirrors the source faithfully:
* a small backtracking matcher `mat` implements the Python `re` semantics
  needed by the five patterns (all quantifiers in the source patterns range
  over single character classes, so greedy/lazy repetition is modelled by
  trying the reachable end positions in decreasing/increasing order, exactly
  as the CPython backtracking engine does); capture marks of failed branches
  are discarded on backtracking, as in CPython;
* the five schema patterns are transcribed node by node from the source
  (each transcription is preceded by the original pattern text);
* `parse_reference`, `extract_fields`, `parse_authors`, `validate_reference`,
  `check_common_problems` and `validate_references` follow the Python
  functions of the same names statement by statement.

Modelling notes: Python `\d`/`\s` match all Unicode digits/whitespace; the
embedding uses the ASCII digit test and a whitespace set covering the
characters occurring in citation text.  Both sides of the validator use the
same class, so every theorem below is insensitive to this choice.
`re.split(r'\n+', ...)` is modelled by splitting at every single newline:
the two differ only in empty pieces, which the source loop skips either way.
-/

namespace RefCheck

/-- Whitespace set used for Python `str.strip` and the `\s` class. -/
def isPySpace (c : Char) : Bool :=
  c = ' ' || c = '\t' || c = '\n' || c = '\r' || c = '\x0b' || c = '\x0c' ||
  c = ' ' || c = '　'

/-- Python `str.strip()`. -/
def pyStrip (s : String) : String :=
  String.mk (((s.toList.dropWhile isPySpace).reverse.dropWhile isPySpace).reverse)

/-- Python `str.split(sep)` for a one-character separator (helper). -/
def splitAux (sep : Char) : List Char → List Char → List String
  | acc, [] => [String.mk acc.reverse]
  | acc, c :: rest =>
      if c = sep then String.mk acc.reverse :: splitAux sep [] rest
      else splitAux sep (c :: acc) rest

/-- Python `str.split(sep)` for a one-character separator. -/
def pySplit (s : String) (sep : Char) : List String := splitAux sep [] s.toList

/-- `re.search(r'[一-鿿]', s)` — does `s` contain a CJK ideograph? -/
def hasCJK (s : String) : Bool :=
  s.toList.any fun c => 0x4e00 ≤ c.toNat && c.toNat ≤ 0x9fff

/-- `re.search(r'[a-zA-Z]', s)` — does `s` contain a Latin letter? -/
def hasLatin (s : String) : Bool :=
  s.toList.any fun c => ('a' ≤ c && c ≤ 'z') || ('A' ≤ c && c ≤ 'Z')

/-- Python `int()` on a decimal digit string (the only use site feeds it
the `(\d+)` capture of the sequence-number pattern). -/
def pyInt (s : String) : Nat :=
  s.toList.foldl (fun acc c => acc * 10 + (c.toNat - '0'.toNat)) 0

/-! ## The pattern matcher -/

/-- Character classes occurring in the source patterns. -/
inductive CCls where
  | dot        -- `.`  (any character except newline; DOTALL is not set)
  | digit      -- `\d`
  | space      -- `\s`
  | notComma   -- `[^,]`
  | notColon   -- `[^:]`
  | notRParen  -- `[^)]`
  | lit (c : Char)  -- a literal character (also `[M]`, `[D]`, `[S]`)
deriving DecidableEq, Repr

def CCls.test : CCls → Char → Bool
  | .dot, c => c ≠ '\n'
  | .digit, c => c.isDigit
  | .space, c => isPySpace c
  | .notComma, c => c ≠ ','
  | .notColon, c => c ≠ ':'
  | .notRParen, c => c ≠ ')'
  | .lit a, c => c = a

/-- Regex shapes occurring in the source patterns.  All repetition in the
source is over a single character class, which `repG`/`repL` reflect. -/
inductive RE where
  | eps
  | ch (cls : CCls)
  | seq (a b : RE)
  | grp (i : Nat) (r : RE)     -- capturing group number `i`
  | opt (r : RE)               -- greedy `(?: ... )?`
  | repG (cls : CCls) (lo : Nat)  -- greedy `cls{lo,}` : `*` is lo=0, `+` is lo=1
  | repL (cls : CCls) (lo : Nat)  -- lazy `cls{lo,}?` : `+?` is lo=1
  | eol                        -- `$` under re.MULTILINE
deriving DecidableEq, Repr

/-- Capture state: group number `i` holds slot `i`. -/
abbrev Caps := List (Option String)

def caps0 : Caps := List.replicate 10 none

def capGet (caps : Caps) (i : Nat) : Option String := (caps[i]?).getD none

def setCap (caps : Caps) (i : Nat) (v : String) : Caps := caps.set i (some v)

/-- Continuations receive the remaining input and the capture state. -/
abbrev Cont := List Char → Caps → Option Caps

/-- Consume exactly `n` characters of class `cls` (the mandatory part of
`cls{n,}`; deterministic, since every consumed character passes the same
single-character test). -/
def consumeCls (cls : CCls) : Nat → List Char → Option (List Char)
  | 0, l => some l
  | _ + 1, [] => none
  | n + 1, c :: rest => if cls.test c then consumeCls cls n rest else none

/-- Greedy star of a character class: consume as much as possible, then
hand shorter and shorter suffixes to the continuation while it fails —
the CPython attempt order for a greedy quantifier. -/
def repGGo (cls : CCls) (caps : Caps) (k : Cont) : List Char → Option Caps
  | [] => k [] caps
  | c :: rest =>
      if cls.test c then
        match repGGo cls caps k rest with
        | some res => some res
        | none => k (c :: rest) caps
      else k (c :: rest) caps

/-- Lazy star of a character class: hand the shortest suffix to the
continuation first, consuming one more character on each failure —
the CPython attempt order for a lazy quantifier. -/
def repLGo (cls : CCls) (caps : Caps) (k : Cont) : List Char → Option Caps
  | [] => k [] caps
  | c :: rest =>
      match k (c :: rest) caps with
      | some res => some res
      | none => if cls.test c then repLGo cls caps k rest else none

/-- Backtracking matcher in continuation style.  `mat r l caps k` tries to
match `r` against a prefix of `l`; on each candidate success it runs the
continuation `k` on the remaining input, and backtracks (in the CPython
attempt order) while `k` fails.  Captures recorded in abandoned branches
are discarded, as in CPython. -/
def mat : RE → List Char → Caps → Cont → Option Caps
  | .eps, l, caps, k => k l caps
  | .ch cls, l, caps, k =>
      match l with
      | c :: rest => if cls.test c then k rest caps else none
      | [] => none
  | .seq a b, l, caps, k => mat a l caps fun l' c => mat b l' c k
  | .grp i r, l, caps, k =>
      mat r l caps fun l' c =>
        k l' (setCap c i (String.mk (l.take (l.length - l'.length))))
  | .opt r, l, caps, k =>
      match mat r l caps k with
      | some res => some res
      | none => k l caps
  | .repG cls lo, l, caps, k =>
      match consumeCls cls lo l with
      | some l' => repGGo cls caps k l'
      | none => none
  | .repL cls lo, l, caps, k =>
      match consumeCls cls lo l with
      | some l' => repLGo cls caps k l'
      | none => none
  | .eol, l, caps, k =>
      if l = [] ∨ l.head? = some '\n' then k l caps else none

/-- `pattern.match(s)` / `re.match(pattern, s)`: anchored at position 0,
any suffix may remain.  Returns the capture state on success. -/
def reMatch (r : RE) (s : String) : Option Caps :=
  mat r s.toList caps0 fun _ caps => some caps

def prefixMatches (r : RE) (s : String) : Bool := (reMatch r s).isSome

/-- Right-nested sequencing of a pattern list. -/
def cats : List RE → RE
  | [] => .eps
  | [r] => r
  | r :: rest => .seq r (cats rest)

/-! ## The five source patterns -/

/-- `\d{4}` — also the year-shape check `re.match(r'\d{4}', year)`. -/
def d4 : RE := .seq (.ch .digit) (.seq (.ch .digit) (.seq (.ch .digit) (.ch .digit)))

/-- `^\[(\d+)\]` — sequence-number extraction. -/
def idxRE : RE := cats [.ch (.lit '['), .grp 1 (.repG .digit 1), .ch (.lit ']')]

/-- `\d+-?\d*` — the page-shape check in `check_common_problems`. -/
def pagesRE : RE := cats [.repG .digit 1, .opt (.ch (.lit '-')), .repG .digit 0]

/-- `^\[(\d+)\]\s+(.+?)\.\s*(.+?)\[\d+\]\.\s*([^,]+?),\s*(\d{4})\s*(?:,\s*([^,]+?)\(([^)]+)\))?\s*:\s*(.+?)\.$` -/
def journalRE : RE := cats [
  .ch (.lit '['), .grp 1 (.repG .digit 1), .ch (.lit ']'), .repG .space 1,
  .grp 2 (.repL .dot 1), .ch (.lit '.'), .repG .space 0,
  .grp 3 (.repL .dot 1), .ch (.lit '['), .repG .digit 1, .ch (.lit ']'),
  .ch (.lit '.'), .repG .space 0,
  .grp 4 (.repL .notComma 1), .ch (.lit ','), .repG .space 0,
  .grp 5 d4, .repG .space 0,
  .opt (cats [.ch (.lit ','), .repG .space 0, .grp 6 (.repL .notComma 1),
              .ch (.lit '('), .grp 7 (.repG .notRParen 1), .ch (.lit ')')]),
  .repG .space 0, .ch (.lit ':'), .repG .space 0,
  .grp 8 (.repL .dot 1), .ch (.lit '.'), .eol]

/-- `^\[(\d+)\]\s+(.+?)\.\s*(.+?)\s*[M]\.\s*([^:]+?):\s*([^,]+?),\s*(\d{4})\.\s*(.+?)\.$` -/
def monographRE : RE := cats [
  .ch (.lit '['), .grp 1 (.repG .digit 1), .ch (.lit ']'), .repG .space 1,
  .grp 2 (.repL .dot 1), .ch (.lit '.'), .repG .space 0,
  .grp 3 (.repL .dot 1), .repG .space 0, .ch (.lit 'M'), .ch (.lit '.'), .repG .space 0,
  .grp 4 (.repL .notColon 1), .ch (.lit ':'), .repG .space 0,
  .grp 5 (.repL .notComma 1), .ch (.lit ','), .repG .space 0,
  .grp 6 d4, .ch (.lit '.'), .repG .space 0,
  .grp 7 (.repL .dot 1), .ch (.lit '.'), .eol]

/-- `^\[(\d+)\]\s+(.+?)\.\s*(.+?)\s*\[C\]//(.+?)\.\s*(.+?)\.\s*([^:]+?):\s*([^,]+?),\s*(\d{4})\s*:\s*(.+?)\.$` -/
def conferenceRE : RE := cats [
  .ch (.lit '['), .grp 1 (.repG .digit 1), .ch (.lit ']'), .repG .space 1,
  .grp 2 (.repL .dot 1), .ch (.lit '.'), .repG .space 0,
  .grp 3 (.repL .dot 1), .repG .space 0,
  .ch (.lit '['), .ch (.lit 'C'), .ch (.lit ']'), .ch (.lit '/'), .ch (.lit '/'),
  .grp 4 (.repL .dot 1), .ch (.lit '.'), .repG .space 0,
  .grp 5 (.repL .dot 1), .ch (.lit '.'), .repG .space 0,
  .grp 6 (.repL .notColon 1), .ch (.lit ':'), .repG .space 0,
  .grp 7 (.repL .notComma 1), .ch (.lit ','), .repG .space 0,
  .grp 8 d4, .repG .space 0, .ch (.lit ':'), .repG .space 0,
  .grp 9 (.repL .dot 1), .ch (.lit '.'), .eol]

/-- `^\[(\d+)\]\s+(.+?)\.\s*(.+?)\s*[D]\.\s*([^:]+?):\s*([^,]+?),\s*(\d{4})\.$` -/
def dissertationRE : RE := cats [
  .ch (.lit '['), .grp 1 (.repG .digit 1), .ch (.lit ']'), .repG .space 1,
  .grp 2 (.repL .dot 1), .ch (.lit '.'), .repG .space 0,
  .grp 3 (.repL .dot 1), .repG .space 0, .ch (.lit 'D'), .ch (.lit '.'), .repG .space 0,
  .grp 4 (.repL .notColon 1), .ch (.lit ':'), .repG .space 0,
  .grp 5 (.repL .notComma 1), .ch (.lit ','), .repG .space 0,
  .grp 6 d4, .ch (.lit '.'), .eol]

/-- `^\[(\d+)\]\s+(.+?)\.\s*(.+?)—(\d{4}),\s*(.+?)\s*[S]\.\s*([^:]+?):\s*([^,]+?),\s*(\d{4})\.\s*(.+?)\.$` -/
def standardRE : RE := cats [
  .ch (.lit '['), .grp 1 (.repG .digit 1), .ch (.lit ']'), .repG .space 1,
  .grp 2 (.repL .dot 1), .ch (.lit '.'), .repG .space 0,
  .grp 3 (.repL .dot 1), .ch (.lit '—'), .grp 4 d4, .ch (.lit ','), .repG .space 0,
  .grp 5 (.repL .dot 1), .repG .space 0, .ch (.lit 'S'), .ch (.lit '.'), .repG .space 0,
  .grp 6 (.repL .notColon 1), .ch (.lit ':'), .repG .space 0,
  .grp 7 (.repL .notComma 1), .ch (.lit ','), .repG .space 0,
  .grp 8 d4, .ch (.lit '.'), .repG .space 0,
  .grp 9 (.repL .dot 1), .ch (.lit '.'), .eol]

/-! ## The `Reference` record and the validator -/

/-- The `Reference` entry class of the source. -/
structure Reference where
  raw_text : String
  index : Option Nat := none
  authors : List String := []
  title : String := ""
  source : String := ""
  year : Option String := none
  volume : Option String := none
  issue : Option String := none
  pages : String := ""
  type : String := ""
  errors : List String := []
  warnings : List String := []
deriving DecidableEq, Repr

/-- `ReferenceValidator._parse_authors`. -/
def parse_authors (authors_str : String) : List String :=
  if hasCJK authors_str then
    if authors_str.toList.contains ',' then
      let authors := pySplit authors_str ','
      if authors.length > 3 then authors.take 3 ++ ["等"] else authors
    else [authors_str]
  else [authors_str]

/-- `groups[i] if groups[i] else None` (an empty capture degrades to `None`). -/
def fieldOrNone (o : Option String) : Option String :=
  match o with
  | none => none
  | some s => if s = "" then none else some s

/-- `ReferenceValidator._extract_fields`: only the `journal` and `monograph`
types receive fields; every other type leaves the record unchanged (the
`publisher` assignment of the monograph branch targets the validator object,
not the record, and is therefore dropped). -/
def extract_fields (ty : String) (caps : Caps) (ref : Reference) : Reference :=
  if ty = "journal" then
    { ref with
        authors := parse_authors ((capGet caps 2).getD ""),
        title := (capGet caps 3).getD "",
        source := (capGet caps 4).getD "",
        year := capGet caps 5,
        volume := fieldOrNone (capGet caps 6),
        issue := fieldOrNone (capGet caps 7),
        pages := (capGet caps 8).getD "" }
  else if ty = "monograph" then
    { ref with
        authors := parse_authors ((capGet caps 2).getD ""),
        title := (capGet caps 3).getD "",
        source := (capGet caps 4).getD "",
        year := capGet caps 6,
        pages := (capGet caps 7).getD "" }
  else ref

/-- The `self.patterns` dict is iterated in insertion order:
journal, monograph, conference, dissertation, standard; first match wins. -/
def firstMatch (s : String) : Option (String × Caps) :=
  match reMatch journalRE s with
  | some caps => some ("journal", caps)
  | none =>
    match reMatch monographRE s with
    | some caps => some ("monograph", caps)
    | none =>
      match reMatch conferenceRE s with
      | some caps => some ("conference", caps)
      | none =>
        match reMatch dissertationRE s with
        | some caps => some ("dissertation", caps)
        | none =>
          match reMatch standardRE s with
          | some caps => some ("standard", caps)
          | none => none

/-- `ReferenceValidator.parse_reference`. -/
def parse_reference (raw0 : String) : Reference :=
  let raw := pyStrip raw0
  let idx : Option Nat :=
    match reMatch idxRE raw with
    | some caps =>
        match capGet caps 1 with
        | some s => some (pyInt s)
        | none => none
    | none => none
  let base : Reference := { raw_text := raw0, index := idx }
  match firstMatch raw with
  | some tc => extract_fields tc.1 tc.2 { base with type := tc.1 }
  | none => { base with errors := ["无法识别文献类型"] }

/-- Sequence-number check of `validate_reference`.  `refsLen` is
`len(self.references)` at call time — the current record has already been
appended, so the expected number is `refsLen + 1`. -/
def indexBlock (refsLen : Nat) (idx : Option Nat) : List String :=
  match idx with
  | none => ["缺少序号"]
  | some i => if i ≠ refsLen + 1 then ["序号不连续，应为" ++ toString (refsLen + 1)] else []

/-- Author checks of `validate_reference`. -/
def authorsBlock (authors : List String) : List String :=
  if authors = [] then ["缺少作者"]
  else if authors.length > 3 ∧ ¬ authors.contains "等" then ["超过3人作者应加'等'字"]
  else []

/-- Title checks of `validate_reference`. -/
def titleBlock (title : String) : List String :=
  if title = "" then ["缺少标题"]
  else if title.length > 100 then ["标题过长：" ++ toString title.length ++ "字符"]
  else []

/-- Type check of `validate_reference` (a recognized type only prints). -/
def typeBlock (ty : String) : List String :=
  if ty = "" then ["无法识别文献类型"] else []

/-- Year checks of `validate_reference` (`if not ref.year` treats both
`None` and the empty string as missing). -/
def yearBlock (year : Option String) : List String :=
  match year with
  | none => ["缺少出版年份"]
  | some y =>
      if y = "" then ["缺少出版年份"]
      else if prefixMatches d4 y then []
      else ["年份格式错误：" ++ y]

/-- `ReferenceValidator.validate_reference`: the five blocks run
unconditionally, in source order. -/
def validate_reference (refsLen : Nat) (ref : Reference) : List String :=
  indexBlock refsLen ref.index ++ authorsBlock ref.authors ++
  titleBlock ref.title ++ typeBlock ref.type ++ yearBlock ref.year

/-- `ReferenceValidator.check_common_problems`. -/
def check_common_problems (ref : Reference) : List String :=
  (if ref.type = "journal" ∧ ref.source ≠ "" ∧ ref.source.length > 20
   then ["期刊名称建议使用缩写"] else []) ++
  (if ref.pages ≠ "" ∧ ¬ prefixMatches pagesRE ref.pages
   then ["页码格式应为\"数字-数字\"或\"数字\""] else []) ++
  (if ref.authors ≠ [] ∧ hasLatin (String.intercalate " " ref.authors)
   then ["外文作者姓名应姓前名后"] else [])

/-- The result dict of `validate_references`. -/
structure Report where
  valid : Bool
  total_references : Nat
  errors : List String
  warnings : List String
  references : List Reference
deriving DecidableEq, Repr

/-- The `f"参考文献{ref.index}: "` message prefix (`None` renders as in Python). -/
def idxTag (ref : Reference) : String :=
  "参考文献" ++ (match ref.index with | some i => toString i | none => "None") ++ ": "

/-- The entry loop of `validate_references`: parse each non-empty entry,
append it to the running record list, then validate it against the length
of that (already extended) list. -/
def processEntries : List String → List Reference → List String → List String →
    List Reference × List String × List String
  | [], refs, errs, warns => (refs, errs, warns)
  | e :: rest, refs, errs, warns =>
      let e' := pyStrip e
      if e' = "" then processEntries rest refs errs warns
      else
        let ref := parse_reference e'
        let refs' := refs ++ [ref]
        let es := validate_reference refs'.length ref
        let ws := check_common_problems ref
        processEntries rest refs'
          (errs ++ es.map fun m => idxTag ref ++ m)
          (warns ++ ws.map fun m => idxTag ref ++ m)

/-- `ReferenceValidator.validate_references`. -/
def validate_references (text : String) : Report :=
  let entries := pySplit (pyStrip text) '\n'
  let (refs, errs, warns) := processEntries entries [] [] []
  { valid := errs.isEmpty,
    total_references := refs.length,
    errors := errs,
    warnings := warns,
    references := refs }

/-! ## Derived characterizations used in theorem statements -/

/-- Does the string start with a decimal digit?  (`re.match(r'\d+-?\d*', s)`
succeeds exactly on such strings, because `re.match` only anchors at the
start: the pattern can always satisfy `-?\d*` with the empty string.) -/
def startsDigit (s : String) : Bool :=
  match s.toList with
  | [] => false
  | c :: _ => c.isDigit

/-- The entries the loop of `validate_references` actually processes:
stripped and non-empty. -/
def cleanEntries (es : List String) : List String :=
  (es.map pyStrip).filter fun e => e ≠ ""

/-- The tagged error output of the loop of `validate_references`, record
by record, starting after `n` already-appended records. -/
def errsFromAt : Nat → List String → List String
  | _, [] => []
  | n, e :: rest =>
      ((validate_reference (n + 1) (parse_reference e)).map
          fun m => idxTag (parse_reference e) ++ m) ++
        errsFromAt (n + 1) rest

/-- The tagged warning output of the loop of `validate_references`. -/
def warnsFromAll : List String → List String
  | [] => []
  | e :: rest =>
      ((check_common_problems (parse_reference e)).map
          fun m => idxTag (parse_reference e) ++ m) ++
        warnsFromAll rest

/-- A four-digit string (what the `(\d{4})` groups capture). -/
def isYear4 (y : String) : Prop :=
  y.toList.length = 4 ∧ y.toList.all Char.isDigit = true

/-- Capture slot `g` holds a four-digit string, if anything. -/
def capOK (g : Nat) (caps : Caps) : Prop :=
  ∀ y, capGet caps g = some y → isYear4 y

/-- Every occurrence of capture group `g` inside the pattern has body
`\d{4}`. -/
def goodG (g : Nat) : RE → Bool
  | .seq a b => goodG g a && goodG g b
  | .grp i r => if i = g then decide (r = d4) else goodG g r
  | .opt r => goodG g r
  | _ => true

/-! ## Theorems -/

set_option maxRecDepth 1000000

/-- Claim C1.  Code evaluation at the claim's own scenario input.  The
journal pattern's type-marker subexpression is `\[\d+\]` (a bracketed
number), so the documented entry with marker `[J]` matches no schema at
all: it is left unclassified and the one-entry batch reports five errors
(including the sequence error caused by validating after the record has
already been appended), not zero.  The second half shows the same entry
with a bracketed-number marker does parse as a journal record with every
field extracted as written, isolating the marker subexpression as the
culprit. -/
theorem C1_journal_scenario_code_eval :
    (parse_reference "[1] 张三. AI赋能教育的实践探索[J]. 计算机教育, 2023, 20(5): 12-18.").type = "" ∧
    (validate_references "[1] 张三. AI赋能教育的实践探索[J]. 计算机教育, 2023, 20(5): 12-18.").errors =
      ["参考文献1: 序号不连续，应为2", "参考文献1: 缺少作者", "参考文献1: 缺少标题",
       "参考文献1: 无法识别文献类型", "参考文献1: 缺少出版年份"] ∧
    (validate_references "[1] 张三. AI赋能教育的实践探索[J]. 计算机教育, 2023, 20(5): 12-18.").warnings = [] ∧
    (validate_references "[1] 张三. AI赋能教育的实践探索[J]. 计算机教育, 2023, 20(5): 12-18.").valid = false ∧
    (parse_reference "[1] 张三. AI赋能教育的实践探索[2]. 计算机教育, 2023, 20(5): 12-18.").type = "journal" ∧
    (parse_reference "[1] 张三. AI赋能教育的实践探索[2]. 计算机教育, 2023, 20(5): 12-18.").authors = ["张三"] ∧
    (parse_reference "[1] 张三. AI赋能教育的实践探索[2]. 计算机教育, 2023, 20(5): 12-18.").title = "AI赋能教育的实践探索" ∧
    (parse_reference "[1] 张三. AI赋能教育的实践探索[2]. 计算机教育, 2023, 20(5): 12-18.").source = "计算机教育" ∧
    (parse_reference "[1] 张三. AI赋能教育的实践探索[2]. 计算机教育, 2023, 20(5): 12-18.").year = some "2023" ∧
    (parse_reference "[1] 张三. AI赋能教育的实践探索[2]. 计算机教育, 2023, 20(5): 12-18.").volume = some "20" ∧
    (parse_reference "[1] 张三. AI赋能教育的实践探索[2]. 计算机教育, 2023, 20(5): 12-18.").issue = some "5" ∧
    (parse_reference "[1] 张三. AI赋能教育的实践探索[2]. 计算机教育, 2023, 20(5): 12-18.").pages = "12-18" := by
  decide

/-- Claim C2.  Code evaluation of the sequence check.  Because
`validate_reference` is called after the current record has been appended
to `self.references`, the expected number is position + 1 instead of the
position: the batch declaring numbers 1, 2, 4 gets sequence errors on the
first two records and none on the third, and even the perfectly numbered
batch 1, 2, 3 is flagged on all three records. -/
theorem C2_sequence_code_eval :
    (validate_references ("[1] 张三. 题名[1]. 计算机教育, 2023, 20(5): 12-18.\n" ++
        "[2] 李四. 题名[2]. 计算机教育, 2023, 20(5): 12-18.\n" ++
        "[4] 王五. 题名[4]. 计算机教育, 2023, 20(5): 12-18.")).errors =
      ["参考文献1: 序号不连续，应为2", "参考文献2: 序号不连续，应为3"] ∧
    (validate_references ("[1] 张三. 题名[1]. 计算机教育, 2023, 20(5): 12-18.\n" ++
        "[2] 李四. 题名[2]. 计算机教育, 2023, 20(5): 12-18.\n" ++
        "[3] 王五. 题名[3]. 计算机教育, 2023, 20(5): 12-18.")).errors =
      ["参考文献1: 序号不连续，应为2", "参考文献2: 序号不连续，应为3", "参考文献3: 序号不连续，应为4"] := by
  decide

/-- Claim C3.  Code evaluation of field extraction.  Entries recognized as
conference, dissertation or standard are classified (the `type` field is
set) but `_extract_fields` has branches only for `journal` and
`monograph`, so authors, title, source, year and pages all stay at their
defaults for the other three kinds. -/
theorem C3_extract_fields_code_eval :
    (parse_reference "[5] 王五. 大模型驱动的教学变革[C]//李明. 计算机教育创新文集. 北京: 清华大学出版社, 2023: 234-245.").type = "conference" ∧
    (parse_reference "[5] 王五. 大模型驱动的教学变革[C]//李明. 计算机教育创新文集. 北京: 清华大学出版社, 2023: 234-245.").authors = [] ∧
    (parse_reference "[5] 王五. 大模型驱动的教学变革[C]//李明. 计算机教育创新文集. 北京: 清华大学出版社, 2023: 234-245.").title = "" ∧
    (parse_reference "[5] 王五. 大模型驱动的教学变革[C]//李明. 计算机教育创新文集. 北京: 清华大学出版社, 2023: 234-245.").source = "" ∧
    (parse_reference "[5] 王五. 大模型驱动的教学变革[C]//李明. 计算机教育创新文集. 北京: 清华大学出版社, 2023: 234-245.").year = none ∧
    (parse_reference "[5] 王五. 大模型驱动的教学变革[C]//李明. 计算机教育创新文集. 北京: 清华大学出版社, 2023: 234-245.").pages = "" ∧
    (parse_reference "[7] 赵六. 研究D. 北京: 北京大学, 2023.").type = "dissertation" ∧
    (parse_reference "[7] 赵六. 研究D. 北京: 北京大学, 2023.").authors = [] ∧
    (parse_reference "[7] 赵六. 研究D. 北京: 北京大学, 2023.").title = "" ∧
    (parse_reference "[7] 赵六. 研究D. 北京: 北京大学, 2023.").year = none ∧
    (parse_reference "[9] 总局. GB—2015, 规则S. 北京: 出版社, 2015. 10-15.").type = "standard" ∧
    (parse_reference "[9] 总局. GB—2015, 规则S. 北京: 出版社, 2015. 10-15.").authors = [] ∧
    (parse_reference "[9] 总局. GB—2015, 规则S. 北京: 出版社, 2015. 10-15.").title = "" ∧
    (parse_reference "[9] 总局. GB—2015, 规则S. 北京: 出版社, 2015. 10-15.").year = none := by
  decide

/-- Claim C4, counterexample.  A completely unrecognized line produces
five errors, not exactly one: the per-record checks are not
short-circuited for unclassified records. -/
theorem C4_counterexample :
    (validate_references "http://example.com").errors =
      ["参考文献None: 缺少序号", "参考文献None: 缺少作者", "参考文献None: 缺少标题",
       "参考文献None: 无法识别文献类型", "参考文献None: 缺少出版年份"] ∧
    (validate_references "http://example.com").errors.length ≠ 1 := by
  decide

/-- Claim C5.  The truncation error of `validate_reference` is dead code:
`_parse_authors` never returns a list that is both longer than three and
free of the et-al marker, because it truncates and appends the marker
itself.  On the claim's scenario (four Chinese authors, no marker) the
entry with the documented `[J]` marker does not even parse (five errors,
none of them the truncation error), and the variant that does parse gets
its author list silently rewritten to three authors plus the marker,
leaving only the sequence off-by-one error. -/
theorem C5_truncation_code_eval :
    (∀ s : String, (parse_authors s).length ≤ 3 ∨ (parse_authors s).contains "等" = true) ∧
    (validate_references "[1] 张三,李四,王五,赵六. AI赋能教育的实践探索[J]. 计算机教育, 2023, 20(5): 12-18.").errors =
      ["参考文献1: 序号不连续，应为2", "参考文献1: 缺少作者", "参考文献1: 缺少标题",
       "参考文献1: 无法识别文献类型", "参考文献1: 缺少出版年份"] ∧
    (parse_reference "[1] 张三,李四,王五,赵六. 题名[1]. 计算机教育, 2023, 20(5): 12-18.").authors =
      ["张三", "李四", "王五", "等"] ∧
    (validate_references "[1] 张三,李四,王五,赵六. 题名[1]. 计算机教育, 2023, 20(5): 12-18.").errors =
      ["参考文献1: 序号不连续，应为2"] := by
  refine ⟨?_, by decide, by decide, by decide⟩
  intro s
  unfold parse_authors
  by_cases hc : hasCJK s
  · rw [if_pos hc]
    by_cases hm : s.toList.contains ','
    · rw [if_pos hm]
      by_cases hl : (pySplit s ',').length > 3
      · rw [if_pos hl]
        right
        simp
      · rw [if_neg hl]
        left
        omega
    · rw [if_neg hm]
      left
      simp
  · rw [if_neg hc]
    left
    simp

/-- Claim C6, counterexample.  A parsed journal record with a 101-character
title receives the finding "标题过长：101字符" in the error list (and the
warning list is empty): over-long titles are Errors in the code, not
Warnings. -/
theorem C6_counterexample :
    "参考文献1: 标题过长：101字符" ∈
      (validate_references ("[1] 张三. " ++ String.mk (List.replicate 101 'A') ++
        "[1]. 计算机教育, 2023, 20(5): 12-18.")).errors ∧
    (validate_references ("[1] 张三. " ++ String.mk (List.replicate 101 'A') ++
        "[1]. 计算机教育, 2023, 20(5): 12-18.")).warnings = [] := by
  decide

/-! ### Helper lemmas -/

theorem mk_toList (s : String) : String.mk s.toList = s := rfl

theorem splitAux_no_sep (sep : Char) :
    ∀ (l acc : List Char), l.contains sep = false →
      splitAux sep acc l = [String.mk (acc.reverse ++ l)] := by
  intro l
  induction l with
  | nil => intro acc _; simp [splitAux]
  | cons c rest ih =>
      intro acc h
      simp only [List.contains_cons, Bool.or_eq_false_iff, beq_eq_false_iff_ne] at h
      have hne : ¬ c = sep := fun hcs => h.1 (by simp [hcs])
      simp only [splitAux, if_neg hne]
      rw [ih (c :: acc) h.2]
      simp

/-- Claim C7.  For a CJK author substring, a comma-separated token count
above three is normalized to the first three tokens plus the et-al marker
(four elements in total), while a count of at most three is returned
unchanged. -/
theorem C7_author_normalizer (s : String) (hc : hasCJK s = true) :
    ((pySplit s ',').length > 3 →
        parse_authors s = (pySplit s ',').take 3 ++ ["等"] ∧ (parse_authors s).length = 4) ∧
    ((pySplit s ',').length ≤ 3 → parse_authors s = pySplit s ',') := by
  by_cases hm : s.toList.contains ','
  · constructor
    · intro hl
      have hpa : parse_authors s = (pySplit s ',').take 3 ++ ["等"] := by
        simp only [parse_authors, hc, if_true, hm, hl, if_pos]
      refine ⟨hpa, ?_⟩
      rw [hpa]
      simp [List.length_take]
      omega
    · intro hl
      simp only [parse_authors, hc, if_true, hm]
      rw [if_neg (by omega : ¬ (pySplit s ',').length > 3)]
  · have hsp : pySplit s ',' = [s] := by
      unfold pySplit
      rw [splitAux_no_sep _ _ _ (by simpa using hm)]
      simp [mk_toList]
    constructor
    · intro hl
      rw [hsp] at hl
      simp at hl
    · intro _
      simp only [parse_authors, hc, if_true, hm, if_neg, hsp]
      simp

/-- Claim C7, witness: the normalizer theorem applied to a four-author
CJK author string. -/
theorem C7_witness :
    hasCJK "张三,李四,王五,赵六" = true ∧
    (((pySplit "张三,李四,王五,赵六" ',').length > 3 →
        parse_authors "张三,李四,王五,赵六" =
          (pySplit "张三,李四,王五,赵六" ',').take 3 ++ ["等"] ∧
        (parse_authors "张三,李四,王五,赵六").length = 4) ∧
     ((pySplit "张三,李四,王五,赵六" ',').length ≤ 3 →
        parse_authors "张三,李四,王五,赵六" = pySplit "张三,李四,王五,赵六" ',')) :=
  ⟨by decide, C7_author_normalizer "张三,李四,王五,赵六" (by decide)⟩

/-- Claim C4, amended.  Validation of an unclassified record emits the
"type not recognized" error but does not short-circuit the remaining
per-record checks (the unrecognized URL line of the counterexample yields
five errors); the warning list for that line is empty as claimed. -/
theorem C4_unclassified_amended (n : Nat) (ref : Reference) (h : ref.type = "") :
    "无法识别文献类型" ∈ validate_reference n ref ∧
    (validate_references "http://example.com").warnings = [] := by
  refine ⟨?_, by decide⟩
  simp [validate_reference, typeBlock, h]

/-- Claim C4, witness: the amended theorem applied to the parsed URL line. -/
theorem C4_witness :
    (parse_reference "http://example.com").type = "" ∧
    ("无法识别文献类型" ∈ validate_reference 1 (parse_reference "http://example.com") ∧
     (validate_references "http://example.com").warnings = []) :=
  ⟨by decide, C4_unclassified_amended 1 (parse_reference "http://example.com") (by decide)⟩

/-- Claim C6, amended.  A non-empty title longer than 100 characters
produces the over-long-title finding in the Error list (not the Warning
list), and an empty title produces the missing-title Error. -/
theorem C6_long_title_amended (n : Nat) (ref ref0 : Reference)
    (h1 : ref.title ≠ "") (h2 : ref.title.length > 100) (h0 : ref0.title = "") :
    ("标题过长：" ++ toString ref.title.length ++ "字符") ∈ validate_reference n ref ∧
    "缺少标题" ∈ validate_reference n ref0 := by
  constructor
  · simp [validate_reference, titleBlock, h1, h2]
  · simp [validate_reference, titleBlock, h0]

/-- Claim C6, witness: the amended theorem applied to a record with a
101-character title and a record with an empty title. -/
theorem C6_witness :
    ({ raw_text := "", title := String.mk (List.replicate 101 'A') } : Reference).title ≠ "" ∧
    ({ raw_text := "", title := String.mk (List.replicate 101 'A') } : Reference).title.length > 100 ∧
    ({ raw_text := "" } : Reference).title = "" ∧
    (("标题过长：" ++
        toString ({ raw_text := "", title := String.mk (List.replicate 101 'A') } : Reference).title.length ++
        "字符") ∈
        validate_reference 0 { raw_text := "", title := String.mk (List.replicate 101 'A') } ∧
     "缺少标题" ∈ validate_reference 0 { raw_text := "" }) :=
  ⟨by decide, by decide, by decide,
   C6_long_title_amended 0 { raw_text := "", title := String.mk (List.replicate 101 'A') }
     { raw_text := "" } (by decide) (by decide) (by decide)⟩

theorem matBranch_isSome (o x : Option Caps) :
    (match o with | some res => some res | none => x).isSome = (o.isSome || x.isSome) := by
  cases o <;> simp

theorem mat_seq (a b : RE) (l : List Char) (caps : Caps) (k : Cont) :
    mat (.seq a b) l caps k = mat a l caps fun l' c => mat b l' c k := rfl

theorem mat_opt (r : RE) (l : List Char) (caps : Caps) (k : Cont) :
    mat (.opt r) l caps k =
      match mat r l caps k with
      | some res => some res
      | none => k l caps := rfl

theorem mat_repG (cls : CCls) (lo : Nat) (l : List Char) (caps : Caps) (k : Cont) :
    mat (.repG cls lo) l caps k =
      match consumeCls cls lo l with
      | some l' => repGGo cls caps k l'
      | none => none := rfl

theorem mat_ch (cls : CCls) (l : List Char) (caps : Caps) (k : Cont) :
    mat (.ch cls) l caps k =
      match l with
      | c :: rest => if cls.test c then k rest caps else none
      | [] => none := rfl

theorem repGGo_isSome (cls : CCls) (caps : Caps) (k : Cont)
    (hk : ∀ l c, (k l c).isSome = true) :
    ∀ l, (repGGo cls caps k l).isSome = true := by
  intro l
  induction l with
  | nil => simpa using hk [] caps
  | cons c rest ih =>
      simp only [repGGo]
      by_cases ht : cls.test c
      · rw [if_pos ht, matBranch_isSome, ih]
        rfl
      · rw [if_neg ht]
        exact hk _ _

/-- The continuation that runs after the leading `\d+` of `\d+-?\d*`
always succeeds: both remaining pieces can match the empty string. -/
theorem pagesTail_isSome (l : List Char) (caps : Caps) :
    (mat (.seq (.opt (.ch (.lit '-'))) (.repG .digit 0)) l caps fun _ c => some c).isSome = true := by
  have htail : ∀ (l' : List Char) (c' : Caps),
      (mat (.repG .digit 0) l' c' fun _ c => some c).isSome = true := by
    intro l' c'
    rw [mat_repG]
    show (repGGo CCls.digit c' (fun _ c => some c) l').isSome = true
    refine repGGo_isSome _ _ _ ?_ l'
    intro l c
    rfl
  rw [mat_seq, mat_opt, matBranch_isSome, htail, Bool.or_true]

/-- `re.match(r'\d+-?\d*', s)` succeeds exactly when `s` starts with a
digit: the Python shape check on pages is a prefix check only. -/
theorem prefixMatches_pagesRE (s : String) : prefixMatches pagesRE s = startsDigit s := by
  unfold prefixMatches reMatch startsDigit
  cases hl : s.toList with
  | nil => rfl
  | cons c rest =>
      show (mat (.seq (.repG .digit 1) (.seq (.opt (.ch (.lit '-'))) (.repG .digit 0)))
              (c :: rest) caps0 fun _ caps => some caps).isSome = c.isDigit
      rw [mat_seq, mat_repG]
      show (match (if c.isDigit = true then consumeCls CCls.digit 0 rest else none) with
            | some l' => repGGo CCls.digit caps0
                (fun l'' c'' => mat (.seq (.opt (.ch (.lit '-'))) (.repG .digit 0)) l'' c''
                  fun _ caps => some caps) l'
            | none => none).isSome = c.isDigit
      by_cases hd : c.isDigit
      · rw [if_pos hd, hd]
        show (repGGo CCls.digit caps0 _ rest).isSome = true
        refine repGGo_isSome _ _ _ ?_ rest
        intro l' c'
        exact pagesTail_isSome l' c'
      · rw [if_neg hd, Bool.eq_false_iff.mpr hd]
        rfl

/-- Claim C8, counterexample.  The venue-length heuristic does not apply
independently of the schema kind: a monograph record whose venue exceeds
20 characters gets no warning (the check requires `type = journal`), and
the pages heuristic does not fire on "12ab" even though that is neither a
"digits" nor a "digits-digits" shape (`re.match` only checks a prefix). -/
theorem C8_counterexample :
    (parse_reference "[1] 李四. 书名M. 地址地址地址地址地址地址地址地址地址地址地: 出版社, 2022. 120-135.").type = "monograph" ∧
    (parse_reference "[1] 李四. 书名M. 地址地址地址地址地址地址地址地址地址地址地: 出版社, 2022. 120-135.").source.length > 20 ∧
    check_common_problems (parse_reference "[1] 李四. 书名M. 地址地址地址地址地址地址地址地址地址地址地: 出版社, 2022. 120-135.") = [] ∧
    (parse_reference "[1] 张三. 题名[1]. 计算机教育, 2023, 20(5): 12ab.").pages = "12ab" ∧
    check_common_problems (parse_reference "[1] 张三. 题名[1]. 计算机教育, 2023, 20(5): 12ab.") = [] := by
  decide

/-- Claim C8, amended.  The three heuristic checks feed the warning list
only, but: the venue-length warning fires exactly on journal records with
a non-empty venue longer than 20 characters (it is not schema-independent);
the pages warning fires exactly when the pages field is non-empty and does
not start with a digit (a prefix check, weaker than the claimed full
"digits"/"digits-digits" shape); the Latin-script reminder fires exactly
when the author list is non-empty and its space-joined rendering contains
a Latin letter. -/
theorem C8_heuristic_warnings_amended (ref : Reference) :
    ("期刊名称建议使用缩写" ∈ check_common_problems ref ↔
      ref.type = "journal" ∧ ref.source ≠ "" ∧ ref.source.length > 20) ∧
    ("页码格式应为\"数字-数字\"或\"数字\"" ∈ check_common_problems ref ↔
      ref.pages ≠ "" ∧ startsDigit ref.pages = false) ∧
    ("外文作者姓名应姓前名后" ∈ check_common_problems ref ↔
      ref.authors ≠ [] ∧ hasLatin (String.intercalate " " ref.authors) = true) := by
  unfold check_common_problems
  simp only [prefixMatches_pagesRE]
  by_cases h1 : ref.type = "journal" ∧ ref.source ≠ "" ∧ ref.source.length > 20 <;>
    by_cases h2 : ref.pages ≠ "" ∧ ¬ startsDigit ref.pages = true <;>
      by_cases h3 : ref.authors ≠ [] ∧ hasLatin (String.intercalate " " ref.authors) = true <;>
        simp only [h1, h2, h3, if_pos, if_neg, if_true, if_false, not_false_iff] <;>
          simp_all

theorem processEntries_spec :
    ∀ (es : List String) (refs : List Reference) (errs warns : List String),
      processEntries es refs errs warns =
        (refs ++ (cleanEntries es).map parse_reference,
         errs ++ errsFromAt refs.length (cleanEntries es),
         warns ++ warnsFromAll (cleanEntries es)) := by
  intro es
  induction es with
  | nil =>
      intro refs errs warns
      simp [processEntries, cleanEntries, errsFromAt, warnsFromAll]
  | cons e rest ih =>
      intro refs errs warns
      by_cases he : pyStrip e = ""
      · have hclean : cleanEntries (e :: rest) = cleanEntries rest := by
          simp [cleanEntries, List.filter_cons, he]
        rw [hclean]
        simp only [processEntries, he, if_pos]
        exact ih refs errs warns
      · have hclean : cleanEntries (e :: rest) = pyStrip e :: cleanEntries rest := by
          simp [cleanEntries, List.filter_cons, he]
        rw [hclean]
        simp only [processEntries, if_neg he]
        rw [ih]
        have hlen : (refs ++ [parse_reference (pyStrip e)]).length = refs.length + 1 := by
          simp
        rw [hlen]
        simp only [errsFromAt, warnsFromAll]
        simp [List.append_assoc]

/-- Claim C9.  Parsing and validation are total over any batch: every
stripped non-empty entry yields exactly one parsed record (unmatched ones
simply carry the unclassified marker, nothing is skipped), every record is
validated and its findings tagged into the report, and the report's `valid`
flag holds exactly when the error list is empty. -/
theorem C9_totality_report (text : String) :
    (validate_references text).references =
      (cleanEntries (pySplit (pyStrip text) '\n')).map parse_reference ∧
    (validate_references text).total_references =
      (cleanEntries (pySplit (pyStrip text) '\n')).length ∧
    (validate_references text).errors =
      errsFromAt 0 (cleanEntries (pySplit (pyStrip text) '\n')) ∧
    (validate_references text).warnings =
      warnsFromAll (cleanEntries (pySplit (pyStrip text) '\n')) ∧
    ((validate_references text).valid = true ↔ (validate_references text).errors = []) := by
  unfold validate_references
  dsimp only
  rw [processEntries_spec]
  dsimp only
  simp [List.isEmpty_iff]

/-! ### The four-digit-year capture invariant (claim C10) -/

theorem mat_eps (l : List Char) (caps : Caps) (k : Cont) :
    mat .eps l caps k = k l caps := rfl

theorem mat_ch_nil (cls : CCls) (caps : Caps) (k : Cont) :
    mat (.ch cls) [] caps k = none := rfl

theorem mat_ch_cons (cls : CCls) (c : Char) (rest : List Char) (caps : Caps) (k : Cont) :
    mat (.ch cls) (c :: rest) caps k = if cls.test c then k rest caps else none := rfl

theorem mat_grp (i : Nat) (r : RE) (l : List Char) (caps : Caps) (k : Cont) :
    mat (.grp i r) l caps k =
      mat r l caps fun l' c =>
        k l' (setCap c i (String.mk (l.take (l.length - l'.length)))) := rfl

theorem mat_repL (cls : CCls) (lo : Nat) (l : List Char) (caps : Caps) (k : Cont) :
    mat (.repL cls lo) l caps k =
      match consumeCls cls lo l with
      | some l' => repLGo cls caps k l'
      | none => none := rfl

theorem mat_eol (l : List Char) (caps : Caps) (k : Cont) :
    mat .eol l caps k = if l = [] ∨ l.head? = some '\n' then k l caps else none := rfl

theorem matBranch_cases {o x r : Option Caps}
    (h : (match o with | some res => some res | none => x) = r) :
    (∃ v, o = some v ∧ r = some v) ∨ (o = none ∧ x = r) := by
  cases o with
  | some v => exact Or.inl ⟨v, rfl, h.symm⟩
  | none => exact Or.inr ⟨rfl, h⟩

theorem matchConsume_cases {o : Option (List Char)} {f : List Char → Option Caps} {res : Caps}
    (h : (match o with | some l' => f l' | none => none) = some res) :
    ∃ l', o = some l' ∧ f l' = some res := by
  cases o with
  | some l' => exact ⟨l', rfl, h⟩
  | none => cases h

theorem mat_ch_some {cls : CCls} {l : List Char} {caps : Caps} {k : Cont} {res : Caps}
    (h : mat (.ch cls) l caps k = some res) :
    ∃ c rest, l = c :: rest ∧ cls.test c = true ∧ k rest caps = some res := by
  cases l with
  | nil => cases h
  | cons c rest =>
      rw [mat_ch_cons] at h
      by_cases ht : cls.test c
      · rw [if_pos ht] at h
        exact ⟨c, rest, rfl, ht, h⟩
      · rw [if_neg ht] at h
        cases h

theorem mat_d4_some {l : List Char} {caps : Caps} {k : Cont} {res : Caps}
    (h : mat d4 l caps k = some res) :
    ∃ c0 c1 c2 c3 rest, l = c0 :: c1 :: c2 :: c3 :: rest ∧
      (c0.isDigit = true ∧ c1.isDigit = true ∧ c2.isDigit = true ∧ c3.isDigit = true) ∧
      k rest caps = some res := by
  rw [show d4 = .seq (.ch .digit) (.seq (.ch .digit) (.seq (.ch .digit) (.ch .digit))) from rfl,
    mat_seq] at h
  obtain ⟨c0, l0, hl0, h0, h⟩ := mat_ch_some h
  rw [mat_seq] at h
  obtain ⟨c1, l1, hl1, h1, h⟩ := mat_ch_some h
  rw [mat_seq] at h
  obtain ⟨c2, l2, hl2, h2, h⟩ := mat_ch_some h
  obtain ⟨c3, l3, hl3, h3, h⟩ := mat_ch_some h
  refine ⟨c0, c1, c2, c3, l3, ?_, ⟨h0, h1, h2, h3⟩, h⟩
  rw [hl0, hl1, hl2, hl3]

theorem capGet_caps0 (g : Nat) : capGet caps0 g = none := by
  unfold capGet caps0
  rw [List.getElem?_replicate]
  by_cases hg : g < 10
  · rw [if_pos hg]
    rfl
  · rw [if_neg hg]
    rfl

theorem capOK_caps0 (g : Nat) : capOK g caps0 := by
  intro y hy
  rw [capGet_caps0] at hy
  cases hy

theorem capGet_setCap_ne {i g : Nat} (h : i ≠ g) (caps : Caps) (v : String) :
    capGet (setCap caps i v) g = capGet caps g := by
  unfold capGet setCap
  rw [List.getElem?_set_ne h]

theorem capGet_setCap_self_cases {i : Nat} {caps : Caps} {v : String} {y : String}
    (h : capGet (setCap caps i v) i = some y) : y = v := by
  unfold capGet setCap at h
  by_cases hb : i < caps.length
  · rw [List.getElem?_set_self hb] at h
    cases h
    rfl
  · rw [List.set_eq_of_length_le (le_of_not_lt hb)] at h
    have : caps[i]? = none := List.getElem?_eq_none (le_of_not_lt hb)
    rw [this] at h
    cases h

theorem repGGo_capOK {g : Nat} {cls : CCls} {caps : Caps} {k : Cont} {res : Caps}
    (hc : capOK g caps)
    (hk : ∀ l' c', capOK g c' → k l' c' = some res → capOK g res) :
    ∀ l, repGGo cls caps k l = some res → capOK g res := by
  intro l
  induction l with
  | nil => intro h; exact hk [] caps hc h
  | cons c rest ih =>
      intro h
      simp only [repGGo] at h
      by_cases ht : cls.test c
      · rw [if_pos ht] at h
        rcases matBranch_cases h with ⟨v, ho, hr⟩ | ⟨_, hx⟩
        · cases hr
          exact ih ho
        · exact hk _ _ hc hx
      · rw [if_neg ht] at h
        exact hk _ _ hc h

theorem repLGo_capOK {g : Nat} {cls : CCls} {caps : Caps} {k : Cont} {res : Caps}
    (hc : capOK g caps)
    (hk : ∀ l' c', capOK g c' → k l' c' = some res → capOK g res) :
    ∀ l, repLGo cls caps k l = some res → capOK g res := by
  intro l
  induction l with
  | nil => intro h; exact hk [] caps hc h
  | cons c rest ih =>
      intro h
      simp only [repLGo] at h
      rcases matBranch_cases h with ⟨v, ho, hr⟩ | ⟨_, hx⟩
      · cases hr
        exact hk _ _ hc ho
      · by_cases ht : cls.test c
        · rw [if_pos ht] at hx
          exact ih hx
        · rw [if_neg ht] at hx
          cases hx

theorem mat_capOK (g : Nat) :
    ∀ (r : RE), goodG g r = true →
      ∀ (l : List Char) (caps : Caps) (k : Cont) (res : Caps),
        capOK g caps →
        (∀ l' c', capOK g c' → k l' c' = some res → capOK g res) →
        mat r l caps k = some res → capOK g res := by
  intro r
  induction r with
  | eps =>
      intro _ l caps k res hc hk h
      exact hk l caps hc h
  | ch cls =>
      intro _ l caps k res hc hk h
      obtain ⟨c, rest, _, _, hk'⟩ := mat_ch_some h
      exact hk rest caps hc hk'
  | seq a b iha ihb =>
      intro hg l caps k res hc hk h
      simp only [goodG, Bool.and_eq_true] at hg
      rw [mat_seq] at h
      refine iha hg.1 l caps _ res hc ?_ h
      intro l' c' hc' h'
      exact ihb hg.2 l' c' k res hc' hk h'
  | grp i r ihr =>
      intro hg l caps k res hc hk h
      rw [mat_grp] at h
      by_cases hi : i = g
      · subst hi
        have hbody : r = d4 := by
          simp only [goodG, if_pos rfl] at hg
          exact of_decide_eq_true hg
        subst hbody
        obtain ⟨c0, c1, c2, c3, rest, hl, hdig, hres⟩ := mat_d4_some h
        subst hl
        have htake : ((c0 :: c1 :: c2 :: c3 :: rest).take
            ((c0 :: c1 :: c2 :: c3 :: rest).length - rest.length)) = [c0, c1, c2, c3] := by
          have hlen : (c0 :: c1 :: c2 :: c3 :: rest).length - rest.length = 4 := by
            simp only [List.length_cons]
            omega
          rw [hlen]
          rfl
        rw [htake] at hres
        refine hk _ _ ?_ hres
        intro y hy
        have hyv : y = String.mk [c0, c1, c2, c3] := capGet_setCap_self_cases hy
        subst hyv
        exact ⟨rfl, by simp [hdig.1, hdig.2.1, hdig.2.2.1, hdig.2.2.2]⟩
      · have hgr : goodG g r = true := by
          simpa only [goodG, if_neg hi] using hg
        refine ihr hgr l caps _ res hc ?_ h
        intro l' c' hc' h'
        refine hk l' _ ?_ h'
        intro y hy
        rw [capGet_setCap_ne hi] at hy
        exact hc' y hy
  | opt r ihr =>
      intro hg l caps k res hc hk h
      rw [mat_opt] at h
      rcases matBranch_cases h with ⟨v, ho, hr⟩ | ⟨_, hx⟩
      · cases hr
        exact ihr (by simpa only [goodG] using hg) l caps k res hc hk ho
      · exact hk l caps hc hx
  | repG cls lo =>
      intro _ l caps k res hc hk h
      rw [mat_repG] at h
      obtain ⟨l', _, hgo⟩ := matchConsume_cases h
      exact repGGo_capOK hc hk l' hgo
  | repL cls lo =>
      intro _ l caps k res hc hk h
      rw [mat_repL] at h
      obtain ⟨l', _, hgo⟩ := matchConsume_cases h
      exact repLGo_capOK hc hk l' hgo
  | eol =>
      intro _ l caps k res hc hk h
      rw [mat_eol] at h
      by_cases he : l = [] ∨ l.head? = some '\n'
      · rw [if_pos he] at h
        exact hk l caps hc h
      · rw [if_neg he] at h
        cases h

theorem reMatch_capOK {re : RE} {g : Nat} (hg : goodG g re = true) {s : String} {caps : Caps}
    (h : reMatch re s = some caps) : capOK g caps := by
  unfold reMatch at h
  refine mat_capOK g re hg s.toList caps0 _ caps (capOK_caps0 g) ?_ h
  intro l' c' hc' h'
  cases h'
  exact hc'

theorem isYear4_prefixMatches {y : String} (h : isYear4 y) :
    y ≠ "" ∧ prefixMatches d4 y = true := by
  obtain ⟨hlen, hall⟩ := h
  cases hy : y.toList with
  | nil => rw [hy] at hlen; cases hlen
  | cons a t1 =>
  cases t1 with
  | nil => rw [hy] at hlen; cases hlen
  | cons b t2 =>
  cases t2 with
  | nil => rw [hy] at hlen; cases hlen
  | cons c t3 =>
  cases t3 with
  | nil => rw [hy] at hlen; cases hlen
  | cons d t4 =>
  cases t4 with
  | cons e t5 => rw [hy] at hlen; simp at hlen
  | nil =>
      rw [hy] at hall
      simp only [List.all_cons, List.all_nil, Bool.and_eq_true, Bool.and_true] at hall
      constructor
      · intro heq
        rw [heq] at hy
        cases hy
      · unfold prefixMatches reMatch
        rw [hy]
        rw [show d4 = .seq (.ch .digit) (.seq (.ch .digit) (.seq (.ch .digit) (.ch .digit)))
          from rfl]
        have ha : CCls.digit.test a = true := hall.1
        have hb : CCls.digit.test b = true := hall.2.1
        have hc : CCls.digit.test c = true := hall.2.2.1
        have hd : CCls.digit.test d = true := hall.2.2.2
        rw [mat_seq, mat_ch_cons, if_pos ha, mat_seq, mat_ch_cons, if_pos hb,
          mat_seq, mat_ch_cons, if_pos hc, mat_ch_cons, if_pos hd]
        rfl

theorem yearBlock_of_isYear4 {o : Option String} (h : ∀ y, o = some y → isYear4 y) :
    yearBlock o = [] ∨ yearBlock o = ["缺少出版年份"] := by
  cases o with
  | none => right; rfl
  | some y =>
      obtain ⟨hne, hpm⟩ := isYear4_prefixMatches (h y rfl)
      left
      simp [yearBlock, hne, hpm]

/-- The year field of a parsed record is either absent or the group-5
capture of a journal match or the group-6 capture of a monograph match —
the other three schemas never populate it. -/
theorem parse_reference_year_cases (raw : String) :
    (parse_reference raw).year = none ∨
    (∃ caps, reMatch journalRE (pyStrip raw) = some caps ∧
        (parse_reference raw).year = capGet caps 5) ∨
    (∃ caps, reMatch monographRE (pyStrip raw) = some caps ∧
        (parse_reference raw).year = capGet caps 6) := by
  unfold parse_reference
  dsimp only
  cases hfm : firstMatch (pyStrip raw) with
  | none =>
      left
      rfl
  | some tc =>
      unfold firstMatch at hfm
      cases hj : reMatch journalRE (pyStrip raw) with
      | some caps =>
          rw [hj] at hfm
          cases hfm
          right; left
          refine ⟨caps, rfl, ?_⟩
          show (extract_fields "journal" caps _).year = capGet caps 5
          unfold extract_fields
          rw [if_pos rfl]
      | none =>
      rw [hj] at hfm
      cases hm : reMatch monographRE (pyStrip raw) with
      | some caps =>
          rw [hm] at hfm
          cases hfm
          right; right
          refine ⟨caps, rfl, ?_⟩
          show (extract_fields "monograph" caps _).year = capGet caps 6
          unfold extract_fields
          rw [if_neg (by decide), if_pos rfl]
      | none =>
      rw [hm] at hfm
      cases hc : reMatch conferenceRE (pyStrip raw) with
      | some caps =>
          rw [hc] at hfm
          cases hfm
          left
          show (extract_fields "conference" caps _).year = none
          unfold extract_fields
          rw [if_neg (by decide), if_neg (by decide)]
      | none =>
      rw [hc] at hfm
      cases hd : reMatch dissertationRE (pyStrip raw) with
      | some caps =>
          rw [hd] at hfm
          cases hfm
          left
          show (extract_fields "dissertation" caps _).year = none
          unfold extract_fields
          rw [if_neg (by decide), if_neg (by decide)]
      | none =>
      rw [hd] at hfm
      cases hs : reMatch standardRE (pyStrip raw) with
      | some caps =>
          rw [hs] at hfm
          cases hfm
          left
          show (extract_fields "standard" caps _).year = none
          unfold extract_fields
          rw [if_neg (by decide), if_neg (by decide)]
      | none =>
          rw [hs] at hfm
          cases hfm

/-- The year field of any parsed record, when present, is a `(\d{4})`
capture, hence a four-digit string. -/
theorem parse_year_isYear4 (raw : String) :
    ∀ y, (parse_reference raw).year = some y → isYear4 y := by
  intro y hy
  rcases parse_reference_year_cases raw with h | ⟨caps, hj, h⟩ | ⟨caps, hm, h⟩
  · rw [h] at hy
    cases hy
  · rw [h] at hy
    exact reMatch_capOK (by decide : goodG 5 journalRE = true) hj y hy
  · rw [h] at hy
    exact reMatch_capOK (by decide : goodG 6 monographRE = true) hm y hy

/-- Claim C10.  For every classified record the year-format error branch
("年份格式错误") is unreachable: the year field, when present, always
passes the validator's four-digit prefix check (it is a `(\d{4})` capture),
so the year block emits either nothing or only the missing-year error. -/
theorem C10_year_format_unreachable (raw : String)
    (_h : (parse_reference raw).type ≠ "") :
    (∀ y, (parse_reference raw).year = some y → prefixMatches d4 y = true) ∧
    (yearBlock (parse_reference raw).year = [] ∨
     yearBlock (parse_reference raw).year = ["缺少出版年份"]) :=
  ⟨fun y hy => (isYear4_prefixMatches (parse_year_isYear4 raw y hy)).2,
   yearBlock_of_isYear4 (parse_year_isYear4 raw)⟩

/-- Claim C10, witness: the theorem applied to an entry the journal
pattern accepts. -/
theorem C10_witness :
    (parse_reference "[1] 张三. 题名[1]. 计算机教育, 2023, 20(5): 12-18.").type ≠ "" ∧
    ((∀ y, (parse_reference "[1] 张三. 题名[1]. 计算机教育, 2023, 20(5): 12-18.").year = some y →
        prefixMatches d4 y = true) ∧
     (yearBlock (parse_reference "[1] 张三. 题名[1]. 计算机教育, 2023, 20(5): 12-18.").year = [] ∨
      yearBlock (parse_reference "[1] 张三. 题名[1]. 计算机教育, 2023, 20(5): 12-18.").year =
        ["缺少出版年份"])) :=
  ⟨by decide, C10_year_format_unreachable "[1] 张三. 题名[1]. 计算机教育, 2023, 20(5): 12-18." (by decide)⟩

end RefCheck
